import Mathlib

/-!
Verification of the `mybot` repository (a Howdies chat-bot skeleton) against its
natural-language specification.  The development shallowly embeds the database
layer (`src/plugins_loader.py`, whose header identifies it as `db.py`) and the
connection/dispatch engine (`src/bot_engine.py`) as executable Lean functions,
and proves or refutes the spec's claims about them.

Modelling conventions:
- Python dicts and SQL tables keyed by strings become association lists.
- Machine integers (Postgres BIGINT) are modelled as `Int` (no overflow occurs
  in any claim).
- Code that raises returns `Except`/an error component; a rolled-back
  transaction returns the pre-call database.
- Locks (`threading.Lock`, `pg_advisory_xact_lock`) only serialize concurrent
  access; this sequential embedding elides them and notes each elision at the
  definition it concerns.
-/

set_option autoImplicit false

namespace MyBot

/-! ### Python-value helpers -/

/-- Truthiness of a Python value that is either `None` or a string:
`None` and `""` are falsy, every other string truthy. -/
def truthyStr : Option String → Bool
  | none => false
  | some s => s ≠ ""

/-- Python `a or b` on `None`-or-string values: yields `a` when `a` is truthy,
otherwise `b`. -/
def pyOr (a b : Option String) : Option String :=
  if truthyStr a then a else b

/-- Python `str.lower()` (ASCII case folding suffices for the names involved). -/
def pyLower (s : String) : String :=
  String.mk (s.data.map Char.toLower)

/-- First-match association-list lookup (Python dict / SQL primary-key access;
keys are unique in every map we build). -/
def alookup {β : Type} : List (String × β) → String → Option β
  | [], _ => none
  | (k, v) :: rest, key => if k = key then some v else alookup rest key

/-- Replace the value stored under `key` (no-op if absent): SQL
`UPDATE ... WHERE user_id = key` / in-place Python dict mutation. -/
def aupdate {β : Type} : List (String × β) → String → (β → β) → List (String × β)
  | [], _, _ => []
  | (k, v) :: rest, key, f =>
      if k = key then (k, f v) :: aupdate rest key f
      else (k, v) :: aupdate rest key f

/-- Python dict assignment `m[key] = v`: overwrite in place if present,
otherwise append. -/
def aset {β : Type} (m : List (String × β)) (key : String) (v : β) :
    List (String × β) :=
  if (alookup m key).isSome then aupdate m key (fun _ => v) else m ++ [(key, v)]

/-- Python dict deletion guarded by a membership test
(`if key in m: del m[key]`). -/
def adel {β : Type} (m : List (String × β)) (key : String) : List (String × β) :=
  m.filter (fun kv => kv.1 ≠ key)

/-! ### Ledger store (`src/plugins_loader.py`, the database layer)

The `user_stats` schema from `init_db` (lines 43-55):
`user_id VARCHAR PRIMARY KEY, username VARCHAR NOT NULL,
permanent_score BIGINT DEFAULT 0, currency BIGINT DEFAULT 500,
feature_data JSONB DEFAULT '\x7b\x7d'::jsonb`. -/

/-- One durable `user_stats` row.  `feature_data` is the JSONB blob; its
top-level keys map to the raw JSON text stored under them (no reachable code
path in the repository ever writes it, see `update_user_stats`). -/
structure LedgerRow where
  username : String
  permanent_score : Int
  currency : Int
  feature_data : List (String × String)
deriving DecidableEq, Repr

/-- The durable table, keyed by `user_id`. -/
abbrev LedgerDB := List (String × LedgerRow)

/-- `SELECT ... WHERE user_id = %s`. -/
def dbLookup (db : LedgerDB) (uid : String) : Option LedgerRow :=
  alookup db uid

/-- The `INSERT ... ON CONFLICT (user_id) DO UPDATE SET username =
EXCLUDED.username` upsert of `update_user_stats` (lines 107-111), with the
schema's column defaults for a fresh row. -/
def upsertUser (db : LedgerDB) (uid uname : String) : LedgerDB :=
  match dbLookup db uid with
  | some _ => aupdate db uid (fun r => { r with username := uname })
  | none =>
      db ++ [(uid, { username := uname, permanent_score := 0, currency := 500,
                     feature_data := [] })]

/-- A parameter value as adapted by the psycopg2 driver into a `%s` slot. -/
inductive SqlParam where
  | intP (i : Int)
  | strP (s : String)
  | pathP (p : List String)
  | jsonP (j : String)
deriving DecidableEq, Repr

/-- Errors raised by the database layer.  `adjust_currency` raises
`ValueError` with distinct messages for a missing row (line 191) and for a
rejected negative balance (line 197); `typeErrorTupleStrIndex` is Python's
`TypeError: tuple indices must be integers or slices, not str`;
`typeErrorParamCountMismatch` is the driver error for an SQL statement whose
`%s` placeholder count differs from the number of supplied parameters. -/
inductive PyErr where
  | valueErrorUserNotFound (uid : String)
  | valueErrorInsufficientFunds (uid : String)
  | typeErrorTupleStrIndex
  | typeErrorParamCountMismatch
  | keyError (k : String)
deriving DecidableEq, Repr

/-- A row as a psycopg2 cursor returns it: the default cursor factory yields a
tuple, `RealDictCursor` (used only by `DatabaseManager.query`, line 74) yields
a string-keyed mapping. -/
inductive PyRow where
  | tup (cells : List Int)
  | dict (fields : List (String × Int))
deriving DecidableEq, Repr

/-- Python subscripting `row['key']`: works on a dict-style row, raises
`TypeError` on a tuple. -/
def pyRowGetStr : PyRow → String → Except PyErr Int
  | .tup _, _ => .error .typeErrorTupleStrIndex
  | .dict fields, key =>
      match alookup fields key with
      | some v => .ok v
      | none => .error (.keyError key)

/-- Shallow embedding of `DatabaseManager.adjust_currency`
(src/plugins_loader.py lines 168-212).

The function runs in one transaction; on any raised error the `except` blocks
roll the transaction back and re-raise, so the returned database is the
pre-call one.  The advisory-lock acquisition
`SELECT pg_advisory_xact_lock(int(user_id))` (line 180) only serializes
concurrent adjustments of the same row and is elided in this sequential
embedding (it assumes a numeric `user_id`, an assumption we inherit).

Note that the cursor is created on line 176 as `conn.cursor()` — the default
tuple cursor, not the `RealDictCursor` used by `query` — so
`cursor.fetchone()` for `SELECT currency ...` yields the one-element tuple
`(currency,)`, and `user_data['currency']` on line 193 subscripts a tuple
with a string. -/
def adjust_currency (db : LedgerDB) (user_id : String) (amount : Int) :
    LedgerDB × Except PyErr Int :=
  -- cursor.execute("SELECT currency FROM user_stats WHERE user_id = %s FOR UPDATE;")
  match dbLookup db user_id with
  | none =>
      -- `if not user_data:` → raise ValueError(f"User ... not found ...")
      (db, .error (.valueErrorUserNotFound user_id))
  | some row =>
      -- user_data = (currency,); current_currency = user_data['currency']
      match pyRowGetStr (.tup [row.currency]) "currency" with
      | .error e => (db, .error e)  -- TypeError → `except Exception` → rollback, raise
      | .ok current_currency =>
          let new_currency := current_currency + amount
          if new_currency < 0 then
            -- raise ValueError(f"Insufficient funds for user ...")
            (db, .error (.valueErrorInsufficientFunds user_id))
          else
            (aupdate db user_id (fun r => { r with currency := new_currency }),
             .ok new_currency)

/-- The `stats` dict passed to `update_user_stats`: the two integer keys the
code inspects (`'permanent_score' in stats and isinstance(..., int)`, same for
`'currency'`), plus the remaining keys mapped to the raw JSON text
`json.dumps` would produce for their values (used only as an opaque SQL
parameter). -/
structure Stats where
  permanent_score : Option Int
  currency : Option Int
  features : List (String × String)
deriving DecidableEq, Repr

/-- `stats.get(feature_key, \x7b\x7d)` rendered by `json.dumps`. -/
def statsGetFeature (stats : Stats) (k : String) : String :=
  (alookup stats.features k).getD "\x7b\x7d"

/-- Count of `%s` placeholders in an SQL string. -/
def countPlaceholders : List Char → Nat
  | '%' :: 's' :: rest => countPlaceholders rest + 1
  | _ :: rest => countPlaceholders rest
  | [] => 0

/-- Count of `%s` placeholders in an SQL string. -/
def sqlPlaceholders (s : String) : Nat :=
  countPlaceholders s.data

/-- Line 118: `"permanent_score = permanent_score + %s"`. -/
def scoreAssignSql : String := "permanent_score = permanent_score + %s"

/-- Line 130: `"feature_data = jsonb_merge(feature_data, %s::jsonb)"`.
Appended to `update_parts` with no corresponding append to `update_params`. -/
def mergeAssignSql : String := "feature_data = jsonb_merge(feature_data, %s::jsonb)"

/-- Line 142 (the f-string, with `\x7b\x7b\x7d\x7d` rendered to a brace pair):
`"feature_data = jsonb_set(COALESCE(feature_data, '\x7b\x7d'::jsonb), %s,
COALESCE(feature_data->%s, '\x7b\x7d'::jsonb) || %s::jsonb, true)"`. -/
def jsonbSetAssignSql : String :=
  "feature_data = jsonb_set(COALESCE(feature_data, '\x7b\x7d'::jsonb), %s, COALESCE(feature_data->%s, '\x7b\x7d'::jsonb) || %s::jsonb, true)"

/-- The `update_parts` list built by `update_user_stats` (lines 113-147):
the score assignment when `stats` carries an int `permanent_score`;
`currency` contributes no part (line 125: `pass`); a `feature_key` appends
BOTH feature_data assignments, lines 130 and 142. -/
def updateParts (stats : Stats) (feature_key : Option String) : List String :=
  (if stats.permanent_score.isSome then [scoreAssignSql] else []) ++
  (match feature_key with
   | some _ => [mergeAssignSql, jsonbSetAssignSql]
   | none => [])

/-- The `update_params` list built alongside `update_parts`: one int for the
score part; for the feature part only the three parameters of the `jsonb_set`
assignment (line 143-147) — the `jsonb_merge` assignment of line 130
contributes a placeholder but no parameter. -/
def updateParams (stats : Stats) (feature_key : Option String) : List SqlParam :=
  (match stats.permanent_score with
   | some s => [.intP s]
   | none => []) ++
  (match feature_key with
   | some k => [.pathP [k], .strP k, .jsonP (statsGetFeature stats k)]
   | none => [])

/-- Line 150: `f"UPDATE user_stats SET \x7b', '.join(update_parts)\x7d WHERE user_id = %s;"`. -/
def updateSql (parts : List String) : String :=
  "UPDATE user_stats SET " ++ String.intercalate ", " parts ++ " WHERE user_id = %s;"

/-- `cursor.execute(sql, tuple(update_params))` for the UPDATE of
`update_user_stats` (line 152).  The driver first substitutes parameters into
the `%s` slots and raises when the counts differ; when they match, the only
assignment that can be present is the score increment (the feature-data pair
of assignments always leaves one placeholder unmatched, and in Postgres would
additionally be rejected for assigning `feature_data` twice and for calling
the undefined function `jsonb_merge`). -/
def execUpdate (db : LedgerDB) (uid : String) (stats : Stats)
    (feature_key : Option String) : Except PyErr LedgerDB :=
  let parts := updateParts stats feature_key
  let params := updateParams stats feature_key ++ [SqlParam.strP uid]
  if sqlPlaceholders (updateSql parts) ≠ params.length then
    .error .typeErrorParamCountMismatch
  else
    .ok (match stats.permanent_score with
         | some s =>
             aupdate db uid
               (fun r => { r with permanent_score := r.permanent_score + s })
         | none => db)

/-- Shallow embedding of `DatabaseManager.update_user_stats`
(src/plugins_loader.py lines 94-166).

One transaction covers the upsert (lines 107-111) and the assembled UPDATE
(line 152), committed on line 154; any error inside it rolls the whole
transaction back (upsert included) and re-raises.  A `currency` entry in
`stats` is deliberately NOT part of that statement (lines 121-125) — after the
commit it is applied through `adjust_currency` (line 159), i.e. in a second,
separate transaction whose error, if any, is re-raised while the first
transaction stays committed. -/
def update_user_stats (db : LedgerDB) (user_id username : String) (stats : Stats)
    (feature_key : Option String) : LedgerDB × Except PyErr Unit :=
  let db1 := upsertUser db user_id username
  let txn1 : Except PyErr LedgerDB :=
    if (updateParts stats feature_key).isEmpty then .ok db1
    else execUpdate db1 user_id stats feature_key
  match txn1 with
  | .error e => (db, .error e)       -- conn.rollback(); raise
  | .ok db2 =>                       -- conn.commit()
      match stats.currency with
      | some c =>
          let res := adjust_currency db2 user_id c
          (res.1, res.2.map (fun _ => ()))   -- return value discarded; errors re-raise
      | none => (db2, .ok ())

/-! ### Connection/session engine (`src/bot_engine.py`) -/

/-- The module-level names bound in `bot_engine.py`: exactly the modules
imported on lines 1-9.  `uuid` (used by `_get_gid`, line 54) and `requests`
(used by `_upload_image`, line 152) are not among them, so evaluating those
names raises `NameError`. -/
def botEngineImports : List String :=
  ["threading", "websocket", "json", "time", "logging", "queue", "traceback",
   "sys", "os"]

/-- An exception escaping engine code. -/
inductive EngineErr where
  | nameError (missing : String)
deriving DecidableEq, Repr

/-- `HowdiesBotEngine._get_gid` (lines 52-54): `str(uuid.uuid4())[:8]`.
Evaluating the expression first resolves the name `uuid` among the module's
bindings; `fresh` stands for the random UUID string the call would then
stringify. -/
def get_gid (fresh : String) : Except EngineErr String :=
  if "uuid" ∈ botEngineImports then .ok (fresh.take 8)
  else .error (.nameError "uuid")

/-- One entry of `_user_map`:
`\x7b"userid": uid, "username": OriginalName, "avatar": url\x7d` (line 317). -/
structure UserEntry where
  userid : String
  username : String
  avatar : Option String
deriving DecidableEq, Repr

/-- One entry of `_joined_rooms`: `\x7b"id": room_id, "name": room_name\x7d`
(line 327). -/
structure Room where
  id : String
  name : String
deriving DecidableEq, Repr

/-- The user-shaped fields a wire payload (or a `users` list element) may
carry; each is absent (`None`) or a string. -/
structure UserInfo where
  username : Option String
  userID : Option String
  userid : Option String
  id : Option String
  avatar : Option String
deriving DecidableEq, Repr

/-- A parsed inbound frame: the discriminator `handler`, the truthiness of
`payload.get("success")`, the payload's own user-shaped fields (used when the
payload itself is the user data, e.g. for `userjoin`), the optional `users`
list, the optional embedded `user`, and the room fields. -/
structure Payload where
  handler : Option String
  success : Bool
  fields : UserInfo
  users : Option (List UserInfo)
  user : Option UserInfo
  roomid : Option String
  name : Option String
deriving DecidableEq, Repr

/-- An outbound frame as built by the send paths ( `"to"` is spelt `toUser`). -/
structure OutPayload where
  id : Option String := none
  type : Option String := none
  text : Option String := none
  url : Option String := none
  handler : Option String := none
  toUser : Option String := none
  roomid : Option String := none
  username : Option String := none
  password : Option String := none
  name : Option String := none
  roomPassword : Option String := none
deriving DecidableEq, Repr

/-- The engine's mutable state, as far as the claims touch it: identity,
connection flag, the two shared maps, the current status value and the frames
actually handed to `ws.send`.  The per-key `threading.Lock`s that bracket map
access (lines 101-114) only serialize threads and are elided here. -/
structure EngineState where
  bot_id : Option String
  default_room_name : String
  ws_connected : Bool
  user_map : List (String × UserEntry)
  joined_rooms : List (String × Room)
  status : String
  out_frames : List OutPayload
deriving DecidableEq, Repr

/-- `get_room_info` (lines 83-98): an explicit id is looked up directly;
with `room_id = None` the joined rooms are scanned for the first one whose
name equals the configured default room name case-insensitively, else `None`. -/
def get_room_info (st : EngineState) (room_id : Option String) : Option Room :=
  match room_id with
  | some rid => alookup st.joined_rooms rid
  | none =>
      (st.joined_rooms.find?
        (fun kv => pyLower kv.2.name = pyLower st.default_room_name)).map Prod.snd

/-- `send_payload` (lines 158-173): when connected, serialize and send the
frame, sleep the 0.1s anti-flood delay, return `True`; otherwise log a warning
and return `False`.  A transport-level failure of `ws.send` itself (the inner
try/except) is an external event outside this sequential embedding: a
connected send is modelled as delivered. -/
def send_payload (st : EngineState) (p : OutPayload) : EngineState × Bool :=
  if st.ws_connected then
    ({ st with out_frames := st.out_frames ++ [p] }, true)
  else
    (st, false)

/-- `send_text_message` (lines 175-200).  The payload dict
`\x7b"id": self._get_gid(), "type": "text", "text": text\x7d` is built before any
branching, so `_get_gid` runs first on every call. -/
def send_text_message (st : EngineState) (target : String) (text : String)
    (is_dm : Bool) (room_id : Option String) (fresh : String) :
    Except EngineErr (EngineState × Bool) := do
  let gid ← get_gid fresh
  let base : OutPayload := { id := some gid, type := some "text", text := some text }
  if is_dm then
    .ok (send_payload st { base with handler := some "message", toUser := some target })
  else
    let room1 := if truthyStr room_id then room_id
                 else (get_room_info st none).map Room.id
    match room1 with
    | some r =>
        if r = "" then .ok (st, false)  -- falsy room id: "no target room" error path
        else .ok (send_payload st
          { base with handler := some "chatroommessage", roomid := some r })
    | none => .ok (st, false)

/-- `send_image_message` (lines 202-227): same shape as `send_text_message`
with an image payload `\x7b"id": gid, "type": "image", "text": caption,
"url": url\x7d`. -/
def send_image_message (st : EngineState) (target : String) (url caption : String)
    (is_dm : Bool) (room_id : Option String) (fresh : String) :
    Except EngineErr (EngineState × Bool) := do
  let gid ← get_gid fresh
  let base : OutPayload := { id := some gid, type := some "image",
                             text := some caption, url := some url }
  if is_dm then
    .ok (send_payload st { base with handler := some "message", toUser := some target })
  else
    let room1 := if truthyStr room_id then room_id
                 else (get_room_info st none).map Room.id
    match room1 with
    | some r =>
        if r = "" then .ok (st, false)
        else .ok (send_payload st
          { base with handler := some "chatroommessage", roomid := some r })
    | none => .ok (st, false)

/-! ### Event dispatcher (lines 117-142) -/

/-- A registered plugin callback: its `__module__` name (what
`_execute_plugin_callback` logs) and its behaviour on a payload —
`run p = .error e` models an uncaught exception with message/traceback `e`. -/
structure Callback (P : Type) where
  moduleName : String
  run : P → Except String Unit

/-- The error record `_execute_plugin_callback` logs: plugin name, triggering
event name, and the exception text with traceback. -/
structure LogEntry where
  plugin : String
  event : String
  err : String
deriving DecidableEq, Repr

/-- `_execute_plugin_callback` (lines 133-142): run the callback under
try/except; an exception is caught at this boundary, logged with the plugin's
module name, the event name and the traceback, and never propagates.  Returns
the log entry the execution produces, if any. -/
def execute_plugin_callback {P : Type} (cb : Callback P) (event_name : String)
    (p : P) : Option LogEntry :=
  match cb.run p with
  | .ok _ => none
  | .error e => some { plugin := cb.moduleName, event := event_name, err := e }

/-- `emit` (lines 117-124): look up the listener list for the event
(`self._event_listeners.get(event_name, [])` — no entry means no callbacks)
and start one sandboxed execution per registered callback, each on its own
thread with the same payload.  The thread bodies are exactly
`execute_plugin_callback`; the result records, per callback in registration
order, the log entry its execution produces.  `emit` itself always returns. -/
def emit {P : Type} (listeners : List (String × List (Callback P)))
    (event_name : String) (p : P) : List (Option LogEntry) :=
  ((alookup listeners event_name).getD []).map
    (fun cb => execute_plugin_callback cb event_name p)

/-- The bodies of the threads `emit` starts for a given callback list:
`emit listeners e p = emitRun ((alookup listeners e).getD []) e p`. -/
def emitRun {P : Type} (hs : List (Callback P)) (event_name : String) (p : P) :
    List (Option LogEntry) :=
  hs.map (fun cb => execute_plugin_callback cb event_name p)

/-! ### Internal state updates and the receive loop (lines 257-336) -/

/-- `payload.get("userID") or payload.get("userid") or payload.get("id")`
(lines 295 and 313), with Python `or` falling through falsy values. -/
def pyFirstId (u : UserInfo) : Option String :=
  pyOr (pyOr u.userID u.userid) u.id

/-- The `users_data` list `_update_internal_state` extracts (lines 302-309):
the `users` list for roster payloads (when the key is present), the payload
itself for `userjoin`, the embedded `user` for `profile` (when present). -/
def usersDataOf (p : Payload) : List UserInfo :=
  match p.handler with
  | some h =>
      if h = "activeoccupants" ∨ h = "getusers" then
        match p.users with
        | some us => us
        | none => []
      else if h = "userjoin" then [p.fields]
      else if h = "profile" then
        match p.user with
        | some u => [u]
        | none => []
      else []
  | none => []

/-- The per-user upsert of the `for user_info in users_data:` loop
(lines 311-318): when username and id are truthy,
`self._user_map[uname.lower()] = \x7b"userid": uid, "username": uname,
"avatar": avatar\x7d`. -/
def applyUser (m : List (String × UserEntry)) (u : UserInfo) :
    List (String × UserEntry) :=
  match u.username, pyFirstId u with
  | some uname, some uid =>
      if uname ≠ "" ∧ uid ≠ "" then
        aset m (pyLower uname) { userid := uid, username := uname, avatar := u.avatar }
      else m
  | _, _ => m

/-- The user-map branch of `_update_internal_state` (lines 301-319). -/
def applyUserBranch (st : EngineState) (p : Payload) : EngineState :=
  { st with user_map := (usersDataOf p).foldl applyUser st.user_map }

/-- The room-map branch of `_update_internal_state` (lines 321-336):
a successful `joinchatroom` stores `\x7b"id": room_id, "name": room_name\x7d`
under the room id, with `room_name = payload.get("name") or
self._default_room_name` and both required truthy; a successful
`leavechatroom` deletes the entry if present. -/
def applyRoomBranch (st : EngineState) (p : Payload) : EngineState :=
  if p.handler = some "joinchatroom" ∧ p.success = true then
    match p.roomid with
    | some rid =>
        let rname := (pyOr p.name (some st.default_room_name)).getD ""
        if rid ≠ "" ∧ rname ≠ "" then
          { st with joined_rooms := aset st.joined_rooms rid { id := rid, name := rname } }
        else st
    | none => st
  else if p.handler = some "leavechatroom" ∧ p.success = true then
    match p.roomid with
    | some rid => { st with joined_rooms := adel st.joined_rooms rid }
    | none => st   -- None is never a key of the room map
  else st

/-- The `joinchatroom` request the login branch sends (line 299). -/
def joinRoomRequest (gid : String) (room : String) : OutPayload :=
  { handler := some "joinchatroom", id := some gid, name := some room,
    roomPassword := some "" }

/-- `_update_internal_state` (lines 289-336).

The login branch (lines 293-299) runs first: on a successful login it sets
`_bot_id` from the payload — but only when `_bot_id` is currently falsy — and
then sends a `joinchatroom` request whose dict carries
`"id": self._get_gid()`.  Building that dict raises `NameError` (`uuid` is
never imported), so for successful logins the method aborts there with the
identity update already applied and the user/room branches never run.  For
every other payload the user-map branch (lines 301-319) and then the room-map
branch (lines 321-336) run. -/
def update_internal_state (st : EngineState) (p : Payload) (fresh : String) :
    EngineState × Option EngineErr :=
  if p.handler = some "login" ∧ p.success = true then
    let st1 :=
      match pyFirstId p.fields with
      | some rid =>
          if rid ≠ "" ∧ ¬ truthyStr st.bot_id = true then
            { st with bot_id := some rid }
          else st
      | none => st
    match get_gid fresh with
    | .error e => (st1, some e)
    | .ok gid =>
        -- (dead in the source as shipped: get_gid always raises)
        let st2 := (send_payload st1 (joinRoomRequest gid st1.default_room_name)).1
        (applyRoomBranch (applyUserBranch st2 p) p, none)
  else
    (applyRoomBranch (applyUserBranch st p) p, none)

/-- What json.loads makes of a raw frame: either it raises `JSONDecodeError`
(the frame is not parseable) or it yields a structured payload.  JSON parsing
itself is the standard library's, not this repository's. -/
inductive Raw where
  | malformed (s : String)
  | wellFormed (p : Payload)

/-- The two ways `_on_message` logs and drops a frame: the
`json.JSONDecodeError` arm (lines 269-271) and the generic
`except Exception` arm (lines 272-274). -/
inductive LogKind where
  | jsonDecodeErr
  | processingErr (e : EngineErr)
deriving DecidableEq, Repr

/-- `f"event:\x7bhandler\x7d"` (line 267); a missing discriminator renders as
Python's `None`. -/
def eventNameOf (p : Payload) : String :=
  "event:" ++ (match p.handler with
               | some h => h
               | none => "None")

/-- `_on_message` (lines 257-274): decode the frame; on decode failure log the
error and drop the frame; otherwise update internal state first and then emit
`"event:" + handler` with the full payload.  Any exception raised while
processing (such as the login branch's `NameError`) is caught by the final
`except Exception`, logged, and the frame dropped — nothing propagates into
the receive loop.  Returns the new state, the emissions performed, and the
error log entries written. -/
def on_message (st : EngineState) (raw : Raw) (fresh : String) :
    EngineState × List (String × Payload) × List LogKind :=
  match raw with
  | .malformed _ => (st, [], [.jsonDecodeErr])
  | .wellFormed p =>
      match update_internal_state st p fresh with
      | (st1, some e) => (st1, [], [.processingErr e])
      | (st1, none) => (st1, [(eventNameOf p, p)], [])

/-- The receive loop: the transport invokes `_on_message` once per inbound
frame, in order (each paired with the fresh UUID string its processing would
draw).  Accumulates all emissions and error logs. -/
def receive_loop (st : EngineState) (frames : List (Raw × String)) :
    EngineState × List (String × Payload) × List LogKind :=
  frames.foldl
    (fun acc fr =>
      let r := on_message acc.1 fr.1 fr.2
      (r.1, acc.2.1 ++ r.2.1, acc.2.2 ++ r.2.2))
    (st, [], [])

/-! ### Connection lifecycle (lines 231-246 and 339-365) -/

/-- Every status string `bot_engine.py` ever passes to `_update_bot_status`
(call sites: lines 41, 244, 253, 284, 342, 365, 380). -/
def engineStatusLiterals : List String :=
  ["Initialized", "Connecting", "Connected", "Disconnected", "Starting",
   "Stopped", "Stopping"]

/-- The connection-lifecycle state of the engine: the run flag, the connection
flag, the attempt counter `_reconnect_attempts` and its configured maximum
`_max_reconnect_attempts` (line 30 — read nowhere else in the file), the
current status value and the trace of every status ever set.

Modelled from the spec: the body of `_update_bot_status` is cut off at the end
of `bot_engine.py` (line 409); per §6 it sets the single current-status value
observable externally, which `status`/`status_trace` record. -/
structure ConnState where
  bot_running : Bool
  ws_connected : Bool
  reconnect_attempts : Nat
  max_reconnect_attempts : Nat
  connect_calls : Nat
  status : String
  status_trace : List String
deriving DecidableEq, Repr

/-- `__init__` (lines 27-41): run flag true, counter 0, maximum 5, status
"Initialized". -/
def connInit : ConnState :=
  { bot_running := true, ws_connected := false, reconnect_attempts := 0,
    max_reconnect_attempts := 5, connect_calls := 0, status := "Initialized",
    status_trace := ["Initialized"] }

/-- `_update_bot_status` as called with a new status value. -/
def setStatus (s : ConnState) (v : String) : ConnState :=
  { s with status := v, status_trace := s.status_trace ++ [v] }

/-- One failed connection attempt, as `run` (lines 339-365) and `_ws_connect`
(lines 231-246) perform it while `_bot_running` holds: `_ws_connect` clears
the connection flag, resets `_reconnect_attempts` to 0, sets status
"Connecting" and hands control to `run_forever`; the failing attempt ends in
`_on_close` (lines 280-284), which clears the flag and sets "Disconnected";
`run` then logs, sleeps its fixed delay and iterates.  No code path compares
the attempt counter to `_max_reconnect_attempts`. -/
def failedAttempt (s : ConnState) : ConnState :=
  if s.bot_running then
    let s1 := setStatus { s with ws_connected := false, reconnect_attempts := 0,
                                 connect_calls := s.connect_calls + 1 } "Connecting"
    setStatus { s1 with ws_connected := false } "Disconnected"
  else s

/-- `run` entered (line 342: status "Starting") followed by `n` consecutive
failed connection attempts with no stop request. -/
def runFailures : ConnState → Nat → ConnState
  | s, 0 => s
  | s, n + 1 => runFailures (failedAttempt s) n

/-- The state after `run` starts and `n` connection attempts all fail. -/
def runAfterFailures (n : Nat) : ConnState :=
  runFailures (setStatus connInit "Starting") n

/-! ### Concrete fixtures for counterexamples and witnesses -/

/-- A ledger row at the schema's default balance. -/
def exRow : LedgerRow :=
  { username := "alice", permanent_score := 0, currency := 500, feature_data := [] }

/-- A one-user ledger. -/
def exDb : LedgerDB := [("7", exRow)]

/-- A `stats` dict carrying both a score increment and a currency delta. -/
def exStatsScoreCur : Stats :=
  { permanent_score := some 10, currency := some 5, features := [] }

/-- A `UserInfo` with every field absent. -/
def emptyUserInfo : UserInfo :=
  { username := none, userID := none, userid := none, id := none, avatar := none }

/-- A successful login confirmation carrying the bot's id. -/
def loginPayload : Payload :=
  { handler := some "login", success := true,
    fields := { emptyUserInfo with userID := some "42" },
    users := none, user := none, roomid := none, name := none }

/-- A later successful login confirmation carrying a different id. -/
def loginPayload99 : Payload :=
  { handler := some "login", success := true,
    fields := { emptyUserInfo with userID := some "99" },
    users := none, user := none, roomid := none, name := none }

/-- An ordinary chat-message frame (no state-update branch applies to it). -/
def chatPayload : Payload :=
  { handler := some "chatroommessage", success := false, fields := emptyUserInfo,
    users := none, user := none, roomid := none, name := none }

/-- A connected engine with its identity set and one joined room whose name
matches the configured default room case-insensitively. -/
def exEngine : EngineState :=
  { bot_id := some "42", default_room_name := "lounge", ws_connected := true,
    user_map := [], joined_rooms := [("r1", { id := "r1", name := "Lounge" })],
    status := "Connected", out_frames := [] }

/-- An engine none of whose joined rooms matches the default room name. -/
def exEngineNoMatch : EngineState :=
  { bot_id := some "42", default_room_name := "lounge", ws_connected := true,
    user_map := [], joined_rooms := [("r2", { id := "r2", name := "arcade" })],
    status := "Connected", out_frames := [] }

/-- A callback that raises on every payload. -/
def cbBad : Callback Nat :=
  { moduleName := "plugin.bad", run := fun _ => .error "boom" }

/-- A callback that returns normally. -/
def cbGood : Callback Nat :=
  { moduleName := "plugin.good", run := fun _ => .ok () }

/-- Listener table with two callbacks registered for one event. -/
def exListeners : List (String × List (Callback Nat)) :=
  [("event:chatroommessage", [cbBad, cbGood])]

/-! ### Helper lemmas -/

/-- The name `uuid` is not bound in `bot_engine.py`, so `_get_gid` raises
`NameError` on every call. -/
theorem get_gid_name_error (fresh : String) :
    get_gid fresh = .error (.nameError "uuid") := by
  have h : "uuid" ∉ botEngineImports := by decide
  simp [get_gid, h]

/-- C8: every outbound message initiated through the engine's text or image
convenience sender fails: building the payload dict evaluates
`self._get_gid()`, which raises `NameError` because `bot_engine.py` never
imports `uuid`; no frame is sent and no correlation identifier is generated.
(The claim that each send completes and carries a fresh short id is refuted on
every input.) -/
theorem send_message_raises_name_error (st : EngineState) (target text url
    caption : String) (is_dm : Bool) (room_id : Option String) (fresh : String) :
    send_text_message st target text is_dm room_id fresh =
      .error (.nameError "uuid") ∧
    send_image_message st target url caption is_dm room_id fresh =
      .error (.nameError "uuid") := by
  constructor
  · unfold send_text_message
    rw [get_gid_name_error]
    rfl
  · unfold send_image_message
    rw [get_gid_name_error]
    rfl

/-- C1: what `adjust_currency` actually does on an over-draw.  For a stored
user with balance `B` and `N > B`, the call leaves the database unchanged (the
transaction rolls back, so there is indeed no partial effect) but the
condition it signals is `TypeError` — `user_data['currency']` subscripts the
default cursor's tuple with a string before the funds check can run — not the
claimed insufficient-funds condition.  Only the record-not-found `ValueError`
(third conjunct) is raised as claimed, because it fires before the subscript. -/
theorem adjust_currency_rejection_behaviour (db : LedgerDB) (uid : String)
    (row : LedgerRow) (B N : Int) (hrow : dbLookup db uid = some row)
    (hB : row.currency = B) (hN : N > B) :
    adjust_currency db uid (-N) = (db, .error .typeErrorTupleStrIndex) ∧
    (adjust_currency db uid (-N)).2 ≠
      .error (.valueErrorInsufficientFunds uid) ∧
    ∀ (db2 : LedgerDB) (uid2 : String), dbLookup db2 uid2 = none →
      adjust_currency db2 uid2 (-N) =
        (db2, .error (.valueErrorUserNotFound uid2)) := by
  refine ⟨?_, ?_, ?_⟩
  · simp [adjust_currency, hrow, pyRowGetStr]
  · simp [adjust_currency, hrow, pyRowGetStr]
  · intro db2 uid2 h2
    simp [adjust_currency, h2]

/-- Witness for `adjust_currency_rejection_behaviour`: user `7` holds the
default balance 500 and is debited 600. -/
theorem adjust_currency_rejection_behaviour_witness :
    adjust_currency exDb "7" (-600) = (exDb, .error .typeErrorTupleStrIndex) ∧
    adjust_currency exDb "9" (-600) =
      (exDb, .error (.valueErrorUserNotFound "9")) := by
  have h := adjust_currency_rejection_behaviour exDb "7" exRow 500 600
    (by decide) (by decide) (by decide)
  exact ⟨h.1, h.2.2 exDb "9" (by decide)⟩

/-- C7: `adjust_currency` never succeeds on an existing user, whatever the
delta: `user_data['currency']` raises `TypeError` (tuple row subscripted with
a string) before the balance is read, the transaction rolls back and no new
balance is stored or returned — refuting the claim that a non-negative-result
adjustment stores and returns `B + d`. -/
theorem adjust_currency_never_succeeds (db : LedgerDB) (uid : String)
    (row : LedgerRow) (d : Int) (hrow : dbLookup db uid = some row)
    (hok : 0 ≤ row.currency + d) :
    adjust_currency db uid d = (db, .error .typeErrorTupleStrIndex) ∧
    ∀ z : Int, (adjust_currency db uid d).2 ≠ .ok z := by
  refine ⟨?_, ?_⟩
  · simp [adjust_currency, hrow, pyRowGetStr]
  · intro z
    simp [adjust_currency, hrow, pyRowGetStr]

/-- Witness for `adjust_currency_never_succeeds`: crediting user `7` with 50
(which the spec says should store and return 550). -/
theorem adjust_currency_never_succeeds_witness :
    adjust_currency exDb "7" 50 = (exDb, .error .typeErrorTupleStrIndex) := by
  exact (adjust_currency_never_succeeds exDb "7" exRow 50 (by decide)
    (by decide)).1

/-- The UPDATE assembled for a feature merge with a score increment carries
six placeholders. -/
theorem placeholders_score_feature :
    sqlPlaceholders (updateSql [scoreAssignSql, mergeAssignSql,
      jsonbSetAssignSql]) = 6 := by
  decide

/-- The UPDATE assembled for a feature merge alone carries five placeholders. -/
theorem placeholders_feature_only :
    sqlPlaceholders (updateSql [mergeAssignSql, jsonbSetAssignSql]) = 5 := by
  decide

/-- The UPDATE assembled for a score increment alone carries two placeholders. -/
theorem placeholders_score_only :
    sqlPlaceholders (updateSql [scoreAssignSql]) = 2 := by
  decide

/-- C2: the feature-data merge never succeeds.  Whenever a `feature_key` is
given, `update_user_stats` appends the `jsonb_merge` assignment (line 130)
without appending a parameter for its placeholder, so the assembled UPDATE
always has exactly one more `%s` than supplied parameters; the driver raises,
the whole transaction — upsert included — rolls back, and the per-user blob
is never touched.  (This refutes the claim that merging under one feature key
succeeds; sibling keys are trivially undisturbed only because nothing is ever
written.) -/
theorem update_user_stats_feature_merge_always_fails (db : LedgerDB)
    (uid uname : String) (stats : Stats) (k : String) :
    update_user_stats db uid uname stats (some k) =
      (db, .error .typeErrorParamCountMismatch) := by
  cases h : stats.permanent_score with
  | none =>
      simp [update_user_stats, updateParts, updateParams, execUpdate, h,
        placeholders_feature_only]
  | some s =>
      simp [update_user_stats, updateParts, updateParams, execUpdate, h,
        placeholders_score_feature]

/-- C4 counterexample: a single `update_user_stats` call carrying both a
score increment and a currency delta is not all-or-nothing.  On the
one-user ledger `exDb` the call commits the score increment in its first
transaction and then fails in the separate currency transaction, raising —
yet the stored record now differs from the pre-call one (score 10 applied,
currency untouched), so an observer sees exactly the half-applied state the
claim forbids. -/
theorem update_user_stats_not_all_or_nothing :
    (update_user_stats exDb "7" "alice" exStatsScoreCur none).2 =
      .error .typeErrorTupleStrIndex ∧
    (update_user_stats exDb "7" "alice" exStatsScoreCur none).1 ≠ exDb ∧
    dbLookup (update_user_stats exDb "7" "alice" exStatsScoreCur none).1 "7" =
      some { username := "alice", permanent_score := 10, currency := 500,
             feature_data := [] } := by
  refine ⟨by rfl, by decide, by rfl⟩

/-- Updating a key rewrites exactly the value stored under it. -/
theorem alookup_aupdate_self {β : Type} (m : List (String × β)) (key : String)
    (f : β → β) : alookup (aupdate m key f) key = (alookup m key).map f := by
  induction m with
  | nil => rfl
  | cons kv rest ih =>
      obtain ⟨k, v⟩ := kv
      by_cases h : k = key
      · subst h
        simp [aupdate, alookup]
      · simp [aupdate, alookup, h, ih]

/-- Updating one key leaves every other key's value unchanged. -/
theorem alookup_aupdate_other {β : Type} (m : List (String × β))
    (key key2 : String) (f : β → β) (hne : key2 ≠ key) :
    alookup (aupdate m key f) key2 = alookup m key2 := by
  induction m with
  | nil => rfl
  | cons kv rest ih =>
      obtain ⟨k, v⟩ := kv
      by_cases h : k = key
      · subst h
        simp [aupdate, alookup, Ne.symm hne, ih]
      · simp [aupdate, alookup, h, ih]

/-- Upserting an existing user rewrites only the username. -/
theorem upsertUser_lookup_existing (db : LedgerDB) (uid uname : String)
    (row : LedgerRow) (hrow : dbLookup db uid = some row) :
    upsertUser db uid uname = aupdate db uid (fun r => { r with username := uname }) := by
  simp [upsertUser, hrow]

/-- C4 amended: `update_user_stats` is not all-or-nothing across its parts;
instead each of its two transactions is individually atomic.  The upsert,
score increment and feature-data update form one transaction — if it fails
(as the feature path always does) the record is left exactly as before — and
a currency delta in `stats` is applied afterwards by `adjust_currency` in a
second, separate transaction, so when that second transaction fails the
already-committed score increment (and username update) remain applied while
the currency alone is unchanged. -/
theorem update_user_stats_two_transactions (db : LedgerDB) (uid uname : String)
    (row : LedgerRow) (s c : Int) (stats : Stats)
    (hrow : dbLookup db uid = some row)
    (hscore : stats.permanent_score = some s)
    (hcur : stats.currency = some c) :
    update_user_stats db uid uname stats none =
      (aupdate (upsertUser db uid uname) uid
        (fun r => { r with permanent_score := r.permanent_score + s }),
       .error .typeErrorTupleStrIndex) ∧
    dbLookup (update_user_stats db uid uname stats none).1 uid =
      some { username := uname, permanent_score := row.permanent_score + s,
             currency := row.currency, feature_data := row.feature_data } ∧
    ∀ (db2 : LedgerDB) (uid2 uname2 : String) (stats2 : Stats) (k : String),
      (update_user_stats db2 uid2 uname2 stats2 (some k)).1 = db2 := by
  have hdb2 : alookup (aupdate (upsertUser db uid uname) uid
      (fun r => { r with permanent_score := r.permanent_score + s })) uid =
      some { username := uname, permanent_score := row.permanent_score + s,
             currency := row.currency, feature_data := row.feature_data } := by
    rw [upsertUser_lookup_existing db uid uname row hrow]
    unfold dbLookup at hrow
    rw [alookup_aupdate_self, alookup_aupdate_self, hrow]
    rfl
  have hmain : update_user_stats db uid uname stats none =
      (aupdate (upsertUser db uid uname) uid
        (fun r => { r with permanent_score := r.permanent_score + s }),
       .error .typeErrorTupleStrIndex) := by
    unfold update_user_stats
    simp [updateParts, updateParams, execUpdate, hscore, hcur,
      placeholders_score_only, adjust_currency, pyRowGetStr, hdb2, dbLookup,
      Except.map]
  refine ⟨hmain, ?_, ?_⟩
  · rw [hmain]
    exact hdb2
  · intro db2 uid2 uname2 stats2 k
    cases h : stats2.permanent_score with
    | none =>
        simp [update_user_stats, updateParts, updateParams, execUpdate, h,
          placeholders_feature_only]
    | some z =>
        simp [update_user_stats, updateParts, updateParams, execUpdate, h,
          placeholders_score_feature]

/-- Witness for `update_user_stats_two_transactions`: user `7` gets a score
increment of 10 committed while the currency delta of 5 fails in the second
transaction. -/
theorem update_user_stats_two_transactions_witness :
    update_user_stats exDb "7" "bob" exStatsScoreCur none =
      ([("7", { username := "bob", permanent_score := 10, currency := 500,
                feature_data := [] })],
       .error .typeErrorTupleStrIndex) := by
  have h := update_user_stats_two_transactions exDb "7" "bob" exRow 10 5
    exStatsScoreCur (by decide) (by decide) (by decide)
  rw [h.1]
  rfl

/-- Invariants of the failing-reconnect loop: while the run flag holds, every
further failed attempt adds one more connection attempt, never consults the
configured maximum, and never sets a `FailedPermanently` status. -/
theorem runFailures_invariant (n : Nat) : ∀ s : ConnState,
    s.bot_running = true → s.status ≠ "FailedPermanently" →
    "FailedPermanently" ∉ s.status_trace →
    (runFailures s n).bot_running = true ∧
    (runFailures s n).connect_calls = s.connect_calls + n ∧
    (runFailures s n).max_reconnect_attempts = s.max_reconnect_attempts ∧
    (runFailures s n).status ≠ "FailedPermanently" ∧
    "FailedPermanently" ∉ (runFailures s n).status_trace := by
  induction n with
  | zero =>
      intro s hrun hst htr
      exact ⟨hrun, rfl, rfl, hst, htr⟩
  | succ n ih =>
      intro s hrun hst htr
      have h2 := ih (failedAttempt s)
        (by simp [failedAttempt, hrun, setStatus])
        (by simp [failedAttempt, hrun, setStatus])
        (by simp [failedAttempt, hrun, setStatus, htr])
      simp only [runFailures]
      refine ⟨h2.1, ?_, ?_, h2.2.2.2.1, h2.2.2.2.2⟩
      · rw [h2.2.1]
        simp [failedAttempt, hrun, setStatus]
        omega
      · rw [h2.2.2.1]
        simp [failedAttempt, hrun, setStatus]

/-- C3: the retry budget is never enforced and `FailedPermanently` is never
reached.  After `run` starts and any number `n` of consecutive failed
connection attempts with no stop request, the engine has made exactly `n`
attempts (in particular more than the configured maximum of 5 once `n`
exceeds it), is still willing to retry, its status is never
`FailedPermanently`, no status it ever set reads `FailedPermanently`, and
indeed `FailedPermanently` is not among the status literals `bot_engine.py`
can set at all — `_max_reconnect_attempts` is written once (line 30) and read
nowhere. -/
theorem reconnect_budget_never_enforced (n : Nat) :
    (runAfterFailures n).status ≠ "FailedPermanently" ∧
    "FailedPermanently" ∉ (runAfterFailures n).status_trace ∧
    (runAfterFailures n).connect_calls = n ∧
    (runAfterFailures n).max_reconnect_attempts = 5 ∧
    (runAfterFailures n).bot_running = true ∧
    "FailedPermanently" ∉ engineStatusLiterals := by
  have h := runFailures_invariant n (setStatus connInit "Starting")
    (by decide) (by decide) (by decide)
  refine ⟨h.2.2.2.1, h.2.2.2.2, ?_, ?_, h.1, by decide⟩
  · have h2 := h.2.1
    simpa [runAfterFailures, setStatus, connInit] using h2
  · have h3 := h.2.2.1
    simpa [runAfterFailures, setStatus, connInit] using h3

/-- C5: fan-out and fault isolation of the dispatcher.  A single `emit` of an
event runs every callback registered for it exactly once — the execution list
has one entry per registered callback, each produced by running that callback
on the one shared payload; a callback that raises yields a log entry carrying
its module name, the event name and the traceback, while `emit` still returns
and every other callback's execution is unaffected (replacing the callback at
one position never changes the entry at another); an event with no registered
callbacks is a no-op. -/
theorem emit_fault_isolated {P : Type}
    (listeners : List (String × List (Callback P))) (e : String) (p : P) :
    ((emit listeners e p).length = ((alookup listeners e).getD []).length) ∧
    (∀ i : Nat, (emit listeners e p).get? i =
      (((alookup listeners e).getD []).get? i).map
        (fun cb => execute_plugin_callback cb e p)) ∧
    (∀ (i : Nat) (cb : Callback P) (err : String),
      ((alookup listeners e).getD []).get? i = some cb →
      cb.run p = .error err →
      (emit listeners e p).get? i =
        some (some { plugin := cb.moduleName, event := e, err := err })) ∧
    (∀ (hs : List (Callback P)) (i j : Nat) (cb2 : Callback P), j ≠ i →
      (emitRun (hs.set i cb2) e p).get? j = (emitRun hs e p).get? j) ∧
    (alookup listeners e = none → emit listeners e p = []) := by
  have hmap : ∀ i : Nat, (emit listeners e p).get? i =
      (((alookup listeners e).getD []).get? i).map
        (fun cb => execute_plugin_callback cb e p) := by
    intro i
    simp [emit, List.get?_map]
  refine ⟨by simp [emit], hmap, ?_, ?_, ?_⟩
  · intro i cb err hcb hrun
    rw [hmap i, hcb]
    simp [execute_plugin_callback, hrun]
  · intro hs i j cb2 hne
    unfold emitRun
    rw [List.map_set]
    exact List.get?_set_ne _ _ (Ne.symm hne)
  · intro hnone
    simp [emit, hnone]

/-- Witness for `emit_fault_isolated`: callbacks `cbBad` (raises "boom") and
`cbGood` registered for one event; emitting once logs the crash for the first
and still executes the second, and an unregistered event emits nothing. -/
theorem emit_fault_isolated_witness :
    (emit exListeners "event:chatroommessage" 7).get? 0 =
      some (some { plugin := "plugin.bad", event := "event:chatroommessage",
                   err := "boom" }) ∧
    (emit exListeners "event:chatroommessage" 7).get? 1 = some none ∧
    (emit exListeners "event:chatroommessage" 7).length = 2 ∧
    emit exListeners "event:dm" 7 = [] := by
  have h := emit_fault_isolated exListeners "event:chatroommessage" (7 : Nat)
  have h2 := emit_fault_isolated exListeners "event:dm" (7 : Nat)
  refine ⟨h.2.2.1 0 cbBad "boom" rfl rfl, ?_, ?_, h2.2.2.2.2 rfl⟩
  · have := h.2.1 1
    simpa [exListeners, alookup, execute_plugin_callback, cbGood] using this
  · have := h.1
    simpa [exListeners, alookup] using this

/-- The room-map branch only mutates `joined_rooms`. -/
theorem applyRoomBranch_bot_id (st : EngineState) (p : Payload) :
    (applyRoomBranch st p).bot_id = st.bot_id := by
  unfold applyRoomBranch
  split
  · split
    · dsimp only
      split <;> rfl
    · rfl
  · split
    · split <;> rfl
    · rfl

/-- The user-map branch only mutates `user_map`. -/
theorem applyUserBranch_bot_id (st : EngineState) (p : Payload) :
    (applyUserBranch st p).bot_id = st.bot_id := rfl

/-- Outside the login branch, `_update_internal_state` only runs the user-map
and room-map branches and raises nothing. -/
theorem update_internal_state_nonlogin (st : EngineState) (p : Payload)
    (fresh : String) (hnl : ¬ (p.handler = some "login" ∧ p.success = true)) :
    update_internal_state st p fresh =
      (applyRoomBranch (applyUserBranch st p) p, none) := by
  unfold update_internal_state
  rw [if_neg hnl]

/-- C9: the identity write is first-writer-wins.  Whenever the engine's
`_bot_id` already holds a truthy (non-empty) value, processing any payload —
login confirmations included — through the state updater leaves it unchanged:
the login branch writes the identity only under `not self._bot_id`, and no
other branch touches it. -/
theorem bot_id_first_writer_wins (st : EngineState) (p : Payload)
    (fresh : String) (hset : truthyStr st.bot_id = true) :
    (update_internal_state st p fresh).1.bot_id = st.bot_id := by
  by_cases hl : p.handler = some "login" ∧ p.success = true
  · unfold update_internal_state
    rw [if_pos hl, get_gid_name_error]
    cases hid : pyFirstId p.fields with
    | none => rfl
    | some rid => simp [hset]
  · rw [update_internal_state_nonlogin st p fresh hl]
    rw [show (applyRoomBranch (applyUserBranch st p) p, (none : Option EngineErr)).1
        = applyRoomBranch (applyUserBranch st p) p from rfl]
    rw [applyRoomBranch_bot_id, applyUserBranch_bot_id]

/-- Witness for `bot_id_first_writer_wins`: the engine already knows id `42`;
a second successful login confirmation carrying id `99` does not overwrite it. -/
theorem bot_id_first_writer_wins_witness :
    (update_internal_state exEngine loginPayload99 "abcd1234efgh").1.bot_id =
      some "42" := by
  exact bot_id_first_writer_wins exEngine loginPayload99 "abcd1234efgh" (by decide)

/-- Processing a successful login confirmation always aborts with the
`NameError` from `_get_gid` (after any identity update). -/
theorem update_internal_state_login_name_error (st : EngineState)
    (fresh : String) :
    (update_internal_state st loginPayload fresh).2 =
      some (EngineErr.nameError "uuid") := by
  unfold update_internal_state
  rw [if_pos ⟨rfl, rfl⟩, get_gid_name_error]

/-- C6: a malformed frame is logged and dropped without touching state or
stopping the loop, and the next well-formed frame is processed — but "fully
processed" holds only outside successful logins.  For any non-login frame the
state updates are applied and its event is emitted (second conjunct); for a
well-formed successful login frame nothing is emitted at all — the state
updater's join-room send raises `NameError` (`uuid` is never imported), the
frame is dropped by the generic handler, and only the two error log entries
remain (third conjunct), refuting the claim for that frame kind. -/
theorem receive_loop_malformed_isolated (st : EngineState) (s f1 f2 : String)
    (p : Payload) (hnl : ¬ (p.handler = some "login" ∧ p.success = true)) :
    on_message st (.malformed s) f1 = (st, [], [.jsonDecodeErr]) ∧
    receive_loop st [(.malformed s, f1), (.wellFormed p, f2)] =
      ((update_internal_state st p f2).1, [(eventNameOf p, p)], [.jsonDecodeErr]) ∧
    (receive_loop st [(.malformed s, f1), (.wellFormed loginPayload, f2)]).2 =
      ([], [.jsonDecodeErr, .processingErr (.nameError "uuid")]) := by
  refine ⟨rfl, ?_, ?_⟩
  · simp [receive_loop, on_message,
      update_internal_state_nonlogin st p f2 hnl]
  · have h2 := update_internal_state_login_name_error st f2
    rcases hq : update_internal_state st loginPayload f2 with ⟨st1, e2⟩
    rw [hq] at h2
    simp only at h2
    subst h2
    simp [receive_loop, on_message, hq]

/-- Witness for `receive_loop_malformed_isolated`: a junk frame followed by
an ordinary chat frame; the chat frame is still dispatched with its event
name and payload, and the loop state survives unchanged. -/
theorem receive_loop_malformed_isolated_witness :
    receive_loop exEngine [(.malformed "oops", "a"), (.wellFormed chatPayload, "b")] =
      (exEngine, [("event:chatroommessage", chatPayload)], [.jsonDecodeErr]) := by
  have h := receive_loop_malformed_isolated exEngine "oops" "a" "b" chatPayload
    (by simp [chatPayload])
  rw [h.2.1]
  rfl

/-- `find?` returns the sole element satisfying the predicate. -/
theorem find?_of_unique {α : Type} (q : α → Bool) (l : List α) (a : α)
    (ha : a ∈ l) (hqa : q a = true)
    (huniq : ∀ b ∈ l, q b = true → b = a) : l.find? q = some a := by
  induction l with
  | nil => cases ha
  | cons x xs ih =>
      by_cases hx : q x = true
      · have hxa : x = a := huniq x (by simp) hx
        rw [List.find?_cons_of_pos _ hx, hxa]
      · rw [List.find?_cons_of_neg _ (by simpa using hx)]
        rcases List.mem_cons.mp ha with h | h
        · exact absurd (h ▸ hqa) hx
        · exact ih h (fun b hb hq => huniq b (List.mem_cons_of_mem _ hb) hq)

/-- C10: default-room resolution.  With no explicit room id, when exactly one
joined room's name matches the configured default room name
case-insensitively, `get_room_info` returns that room's stored record — id
included; when no joined room matches, it returns `None`. -/
theorem get_room_info_default_room (st : EngineState) (rid : String) (r : Room)
    (hmem : (rid, r) ∈ st.joined_rooms)
    (hmatch : pyLower r.name = pyLower st.default_room_name)
    (huniq : ∀ kv ∈ st.joined_rooms,
      pyLower kv.2.name = pyLower st.default_room_name → kv = (rid, r)) :
    get_room_info st none = some r ∧
    ∀ st2 : EngineState,
      (∀ kv ∈ st2.joined_rooms,
        pyLower kv.2.name ≠ pyLower st2.default_room_name) →
      get_room_info st2 none = none := by
  constructor
  · unfold get_room_info
    rw [find?_of_unique _ st.joined_rooms (rid, r) hmem (by simpa using hmatch)
      (fun b hb hq => huniq b hb (by simpa using hq))]
    rfl
  · intro st2 hnone
    unfold get_room_info
    rw [List.find?_eq_none.mpr (fun kv hkv => by simpa using hnone kv hkv)]
    rfl

/-- Witness for `get_room_info_default_room`: the default room name "lounge"
matches the single joined room "Lounge" case-insensitively; an engine whose
only room is "arcade" resolves no default room. -/
theorem get_room_info_default_room_witness :
    get_room_info exEngine none = some { id := "r1", name := "Lounge" } ∧
    get_room_info exEngineNoMatch none = none := by
  have h := get_room_info_default_room exEngine "r1" { id := "r1", name := "Lounge" }
    (by simp [exEngine]) (by decide) (by decide)
  exact ⟨h.1, h.2 exEngineNoMatch (by decide)⟩

end MyBot
